import Mathlib

/-!
Verification of the openclaw connection-lifecycle orchestrator and
agent-provisioning pipeline.

Shallow embedding of:
- src/composio/client.ts (broker client adapter: credential resolution and
  the process-wide client cache),
- src/composio/connected-accounts.ts (broker call wrappers with duck-typed
  response coercion),
- src/agents/tools/composio-tool.ts (the connection orchestrator's tool
  actions: connect, connect_multiple, status),
- src/onboarding/recipes.ts (the static recipe catalogue),
- src/gateway/server-methods/onboard-simple.ts (the onboard.simple
  provisioning pipeline), with its filesystem and config-store effects
  modelled as an explicit event trace over a world state.

Asynchronous broker calls are modelled by oracle functions returning
`Except String` (a throw carries the stringified error); the JS fan-out with
`Promise.all` over `Array.map` collects outcomes in input order, which the
embedding renders as `List.map`.
-/

namespace OpenClaw

/-! ## Duck-typed JavaScript values (src/composio/connected-accounts.ts) -/

/-- A primitive JavaScript value as it appears in a duck-typed broker
response field.  A number is carried by its printed form (the string JS
interpolation produces for it). -/
inductive JsPrim where
  | jstr (s : String)
  | jnum (printed : String)
  | jbool (b : Bool)
  | jnull
  | jundef
  deriving DecidableEq, Repr

/-- `toStr` from src/composio/connected-accounts.ts: safely coerce an unknown
value to a string, falling back to the provided default. -/
def toStr (value : JsPrim) (fallback : String) : String :=
  match value with
  | .jstr s => s
  | .jnum printed => printed
  | .jbool b => if b then "true" else "false"
  | .jnull => fallback
  | .jundef => fallback

/-- JavaScript `a || b` on strings: the empty string is falsy. -/
def jsOr (a b : String) : String :=
  if a = "" then b else a

/-- `String.toUpperCase()`, character-level (so the kernel can evaluate it). -/
def jsToUpper (s : String) : String :=
  ⟨s.data.map Char.toUpper⟩

/-- `String.trim()`: strip leading and trailing whitespace, character-level. -/
def jsTrim (s : String) : String :=
  ⟨((s.data.dropWhile Char.isWhitespace).reverse.dropWhile Char.isWhitespace).reverse⟩

/-! ## Composio configuration (src/config/types.composio.ts) -/

/-- `ComposioConfig` from src/config/types.composio.ts. -/
structure ComposioConfig where
  enabled : Option Bool
  apiKey : Option String
  baseUrl : Option String
  defaultToolkits : Option (List String)
  maxAccountsPerUser : Option Nat
  deriving DecidableEq, Repr

/-- The environment variables read by the broker client adapter. -/
structure Env where
  composioApiKey : Option String
  composioBaseUrl : Option String
  deriving DecidableEq, Repr

/-! ## Broker client adapter (src/composio/client.ts) -/

/-- JS `x?.trim() || y`: an absent value, or one that trims to the empty
string, falls through to the alternative. -/
def trimTruthy (s : Option String) : Option String :=
  match s with
  | some s => if jsTrim s = "" then none else some (jsTrim s)
  | none => none

/-- `resolveApiKey`: `config?.apiKey?.trim() || process.env.COMPOSIO_API_KEY?.trim() || undefined`. -/
def resolveApiKey (config : Option ComposioConfig) (env : Env) : Option String :=
  match trimTruthy (config.bind fun c => c.apiKey) with
  | some k => some k
  | none => trimTruthy env.composioApiKey

/-- `resolveBaseUrl`: `config?.baseUrl?.trim() || process.env.COMPOSIO_BASE_URL?.trim() || undefined`. -/
def resolveBaseUrl (config : Option ComposioConfig) (env : Env) : Option String :=
  match trimTruthy (config.bind fun c => c.baseUrl) with
  | some u => some u
  | none => trimTruthy env.composioBaseUrl

/-- A broker client instance.  `new Composio(...)` allocates a fresh object;
object identity is modelled by an allocation counter, so a client is its
allocation number. -/
abbrev Client := Nat

/-- The module-level cache of src/composio/client.ts (`cachedClient`,
`cachedApiKey`, `cachedBaseUrl`), together with the allocation counter that
models JS object identity. -/
structure ClientCache where
  cachedClient : Option Client
  cachedApiKey : Option String
  cachedBaseUrl : Option String
  nextId : Nat
  deriving DecidableEq, Repr

/-- `getComposioClient` from src/composio/client.ts: `null` when no API key
resolves; a cache hit on matching `(apiKey, baseUrl)` returns the cached
instance; otherwise a new client is constructed and replaces the cache. -/
def getComposioClient (config : Option ComposioConfig) (env : Env)
    (st : ClientCache) : Option Client × ClientCache :=
  match resolveApiKey config env with
  | none => (none, st)
  | some apiKey =>
    let baseUrl := resolveBaseUrl config env
    if st.cachedClient.isSome ∧ st.cachedApiKey = some apiKey ∧ st.cachedBaseUrl = baseUrl then
      (st.cachedClient, st)
    else
      (some st.nextId,
        { cachedClient := some st.nextId, cachedApiKey := some apiKey,
          cachedBaseUrl := baseUrl, nextId := st.nextId + 1 })

/-- `clearComposioClient` from src/composio/client.ts. -/
def clearComposioClient (st : ClientCache) : ClientCache :=
  { st with cachedClient := none, cachedApiKey := none, cachedBaseUrl := none }

/-- The client-cache allocation invariant: any cached client instance was
allocated earlier than the next allocation number. -/
def ClientCache.WF (st : ClientCache) : Prop :=
  ∀ c, st.cachedClient = some c → c < st.nextId

/-! ## Broker oracle and connected-account wrappers
(src/composio/connected-accounts.ts) -/

/-- The parameters submitted to the broker's initiate endpoint. -/
structure InitiateParams where
  entityId : String
  appName : String
  redirectUri : Option String
  deriving DecidableEq, Repr

/-- The broker's raw initiate response; `redirectUrl` may be absent
(`connectionRequest.redirectUrl ?? ""` in the source). -/
structure RawInitiateResponse where
  connectedAccountId : String
  redirectUrl : Option String
  deriving DecidableEq, Repr

/-- A raw connected-account record as the broker returns it, duck-typed. -/
structure RawAccount where
  id : JsPrim
  appName : JsPrim
  app : JsPrim
  status : JsPrim
  createdAt : JsPrim
  updatedAt : JsPrim
  deriving DecidableEq, Repr

/-- The external connection broker, as an oracle: each endpoint either
answers or throws (`Except.error` carries the stringified error). -/
structure Broker where
  initiate : InitiateParams → Except String RawInitiateResponse
  get : String → Except String RawAccount

/-- `ComposioInitiateConnectionResult` from src/composio/types.ts. -/
structure ComposioInitiateConnectionResult where
  connectedAccountId : String
  redirectUrl : String
  deriving DecidableEq, Repr

/-- `ComposioConnectedAccount` from src/composio/types.ts.  At runtime the
`status` field is whatever string the coercion produced (the TS union type is
a compile-time cast only), so it is a plain string here. -/
structure ComposioConnectedAccount where
  id : String
  appName : String
  status : String
  createdAt : String
  updatedAt : String
  deriving DecidableEq, Repr

/-- The exact call `initiateConnection` submits to the broker: the app name
is upper-cased (`params.appName.toUpperCase()`). -/
def initiateCall (params : InitiateParams) : InitiateParams :=
  { params with appName := jsToUpper params.appName }

/-- `initiateConnection` from src/composio/connected-accounts.ts: submits
with the app name upper-cased, maps an absent `redirectUrl` to the empty
string, and rethrows broker errors. -/
def initiateConnection (broker : Broker) (params : InitiateParams) :
    Except String ComposioInitiateConnectionResult :=
  match broker.initiate (initiateCall params) with
  | .ok req =>
      .ok { connectedAccountId := req.connectedAccountId,
            redirectUrl := req.redirectUrl.getD "" }
  | .error err => .error err

/-- `getConnectionStatus` from src/composio/connected-accounts.ts: fetches
the account and coerces each field, with `status` defaulting to
`"INITIATED"` only when the broker omits it; broker errors are rethrown. -/
def getConnectionStatus (broker : Broker) (connectedAccountId : String) :
    Except String ComposioConnectedAccount :=
  match broker.get connectedAccountId with
  | .ok raw =>
      .ok { id := toStr raw.id connectedAccountId,
            appName := jsOr (toStr raw.appName "") (toStr raw.app ""),
            status := toStr raw.status "INITIATED",
            createdAt := toStr raw.createdAt "",
            updatedAt := toStr raw.updatedAt "" }
  | .error err => .error err

/-! ## Connection orchestrator tool actions (src/agents/tools/composio-tool.ts) -/

/-- The composio tool's validated arguments (`ComposioToolSchema`); every
field but `action` is optional.  `readStringParam` / `readStringArrayParam`
on a schema-validated object amount to optional field access. -/
structure ToolParams where
  action : String
  entityId : Option String
  appName : Option String
  appNames : Option (List String)
  connectedAccountId : Option String
  redirectUri : Option String
  deriving Repr

/-- Entity resolution (composio-tool.ts line 114): explicit `entityId`
param, else the caller-supplied resolver's answer, else `"default"`. -/
def resolveEntity (params : ToolParams) (resolver : Option String) : String :=
  match params.entityId with
  | some e => e
  | none =>
    match resolver with
    | some e => e
    | none => "default"

/-- The success payload of the `connect` action (composio-tool.ts lines
130-144): the initiate result spread into the response together with the
message, `authUrl`, and the app name **as given in the request**. -/
structure ConnectOutput where
  connectedAccountId : String
  redirectUrl : String
  message : String
  authUrl : String
  appName : String
  deriving DecidableEq, Repr

/-- The `connect` case of the composio tool: requires `appName`, calls
`initiateConnection`, and returns the payload together with the list of
broker initiate calls that were submitted. -/
def connectCase (broker : Broker) (entityId : String) (params : ToolParams) :
    Except String ConnectOutput × List InitiateParams :=
  match params.appName with
  | none => (.error "appName required", [])
  | some appName =>
    let call := initiateCall { entityId := entityId, appName := appName,
                               redirectUri := params.redirectUri }
    match initiateConnection broker { entityId := entityId, appName := appName,
                                      redirectUri := params.redirectUri } with
    | .ok result =>
        (.ok { connectedAccountId := result.connectedAccountId,
               redirectUrl := result.redirectUrl,
               message := "Send the following link to the user to authorize " ++ appName ++ ":",
               authUrl := result.redirectUrl,
               appName := appName }, [call])
    | .error err => (.error err, [call])

/-- One element of the `connect_multiple` response (composio-tool.ts lines
159-183): success keeps the initiate result with `error:null`; the per-item
catch yields the failure shape with nulled ids and the stringified error. -/
structure ConnectItem where
  appName : String
  connectedAccountId : Option String
  redirectUrl : Option String
  authUrl : Option String
  error : Option String
  deriving DecidableEq, Repr

/-- The per-item fan-out body of `connect_multiple`: `initiateConnection`
wrapped in try/catch, mapped to the tagged success or failure shape. -/
def connectItem (broker : Broker) (entityId : String)
    (redirectUri : Option String) (name : String) : ConnectItem :=
  match initiateConnection broker { entityId := entityId, appName := name,
                                    redirectUri := redirectUri } with
  | .ok result =>
      { appName := jsToUpper name,
        connectedAccountId := some result.connectedAccountId,
        redirectUrl := some result.redirectUrl,
        authUrl := some result.redirectUrl,
        error := none }
  | .error err =>
      { appName := jsToUpper name,
        connectedAccountId := none,
        redirectUrl := none,
        authUrl := none,
        error := some err }

/-- The app-name list resolution at the head of `connect_multiple`
(composio-tool.ts lines 147-151): `appNames` when supplied, else a singleton
of `appName` when that is present and truthy (the JS conditional treats the
empty string as absent). -/
def resolveAppNames (params : ToolParams) : Option (List String) :=
  match params.appNames with
  | some names => some names
  | none =>
    match params.appName with
    | some name => if name = "" then none else some [name]
    | none => none

/-- The per-entity batch ceiling: `config?.maxAccountsPerUser ?? 20`. -/
def maxAccounts (config : Option ComposioConfig) : Nat :=
  (config.bind fun c => c.maxAccountsPerUser).getD 20

/-- The `connect_multiple` case of the composio tool (composio-tool.ts lines
146-189): resolves the batch, rejects an empty or over-cap batch before any
broker call, then fans out `connectItem` over the names in order.  Returns
the payload and the list of broker initiate calls submitted. -/
def connectMultipleCase (config : Option ComposioConfig) (broker : Broker)
    (entityId : String) (params : ToolParams) :
    Except String (List ConnectItem) × List InitiateParams :=
  match resolveAppNames params with
  | none => (.error "appNames required for connect_multiple", [])
  | some appNames =>
    if appNames.length = 0 then
      (.error "appNames required for connect_multiple", [])
    else if appNames.length > maxAccounts config then
      (.error ("Cannot connect more than " ++ toString (maxAccounts config) ++ " services at once"), [])
    else
      (.ok (appNames.map fun name => connectItem broker entityId params.redirectUri name),
       appNames.map fun name =>
         initiateCall { entityId := entityId, appName := name,
                        redirectUri := params.redirectUri })

/-- The `status` case of the composio tool (composio-tool.ts lines 191-197):
requires `connectedAccountId` and returns `getConnectionStatus` verbatim as
the JSON payload. -/
def statusCase (broker : Broker) (params : ToolParams) :
    Except String ComposioConnectedAccount :=
  match params.connectedAccountId with
  | none => .error "connectedAccountId required"
  | some accId => getConnectionStatus broker accId

/-! ## Recipe catalogue (src/onboarding/recipes.ts) -/

/-- `Recipe` from src/onboarding/recipes.ts. -/
structure Recipe where
  id : String
  label : String
  description : String
  emoji : String
  soul : String
  agents : String
  tools : Option String
  deriving DecidableEq, Repr

/-- The "daily-assistant" entry of the `RECIPES` catalogue. -/
def dailyAssistant : Recipe where
  id := "daily-assistant"
  label := "Daily Assistant"
  description := "A helpful everyday companion for tasks, reminders, and Q&A."
  emoji := "🌟"
  soul := "# SOUL.md - Daily Assistant

You're a dependable personal assistant.  Be concise, proactive, and genuinely helpful.
Skip filler phrases — just help.  If you can figure something out on your own, do it
before asking.  Prioritise clarity and action over verbosity.

## Personality
- Warm but efficient
- Opinionated when it helps (suggest, don't just list)
- Respects the user's time above all
"
  agents := "# AGENTS.md - Daily Assistant

## Every Session
1. Read SOUL.md — your personality
2. Read USER.md — who you're helping
3. Check memory files for recent context

## What You Do
- Answer questions clearly and concisely
- Help with everyday tasks, planning, and organisation
- Set reminders and follow up proactively
- Summarise long content when asked

## Guidelines
- Be direct. No preamble.
- If unsure, say so — don't make things up.
- Write things down so future-you remembers.
"
  tools := none

/-- The "creative-partner" entry of the `RECIPES` catalogue. -/
def creativePartner : Recipe where
  id := "creative-partner"
  label := "Creative Partner"
  description := "Brainstorm ideas, write content, and explore creative projects."
  emoji := "🎨"
  soul := "# SOUL.md - Creative Partner

You're a creative collaborator — part muse, part editor, part hype-person.
You help the user think bigger, write better, and explore ideas fearlessly.
Push back when something could be stronger.  Celebrate when it clicks.

## Personality
- Playful and imaginative
- Honest about what works and what doesn't
- Loves riffing on half-formed ideas
"
  agents := "# AGENTS.md - Creative Partner

## Every Session
1. Read SOUL.md — your creative voice
2. Read USER.md — who you're collaborating with
3. Check memory for ongoing projects

## What You Do
- Brainstorm and develop ideas
- Write, edit, and refine content (copy, stories, scripts, posts)
- Provide honest creative feedback
- Help overcome blocks — suggest angles, prompts, constraints

## Guidelines
- First drafts are for exploration, not perfection.
- When giving feedback, be specific — \"this part drags\" beats \"needs work.\"
- Keep a running list of ideas in memory files.
"
  tools := none

/-- The "research-analyst" entry of the `RECIPES` catalogue. -/
def researchAnalyst : Recipe where
  id := "research-analyst"
  label := "Research Analyst"
  description := "Deep-dive into topics, summarise findings, and track information."
  emoji := "🔍"
  soul := "# SOUL.md - Research Analyst

You're a thorough, detail-oriented researcher.  You dig deep, cross-reference,
and present findings clearly.  You distinguish fact from speculation and always
cite your reasoning.  Accuracy matters more than speed.

## Personality
- Methodical and precise
- Comfortable saying \"I don't know yet — let me look\"
- Presents balanced perspectives, then gives a recommendation
"
  agents := "# AGENTS.md - Research Analyst

## Every Session
1. Read SOUL.md — your analytical lens
2. Read USER.md — their interests and context
3. Check memory for ongoing research threads

## What You Do
- Research topics in depth
- Summarise findings with key takeaways
- Track evolving information across sessions
- Compare options and make recommendations

## Guidelines
- Separate facts from opinions explicitly.
- When you find conflicting information, present both sides.
- Keep research notes in memory files for continuity.
"
  tools := none

/-- The "learning-coach" entry of the `RECIPES` catalogue. -/
def learningCoach : Recipe where
  id := "learning-coach"
  label := "Learning Coach"
  description := "Help learn new skills, explain concepts, and track progress."
  emoji := "📚"
  soul := "# SOUL.md - Learning Coach

You're a patient, encouraging teacher who adapts to the user's level.
You explain things simply without being condescending.  You use analogies,
examples, and Socratic questioning to help concepts stick.
You celebrate progress and normalise struggle.

## Personality
- Patient and encouraging
- Explains simply, but doesn't dumb down
- Asks questions to check understanding
- Makes learning feel like a conversation, not a lecture
"
  agents := "# AGENTS.md - Learning Coach

## Every Session
1. Read SOUL.md — your teaching style
2. Read USER.md — their goals and current level
3. Check memory for learning progress

## What You Do
- Explain concepts at the right level
- Create practice exercises and challenges
- Track what the user has learned across sessions
- Recommend next steps and resources

## Guidelines
- Start from what they know, build to what they don't.
- Use concrete examples before abstract explanations.
- When they're stuck, guide — don't just give the answer.
- Log progress in memory so you can build on it next time.
"
  tools := none

/-- The `RECIPES` catalogue constant. -/
def RECIPES : List Recipe :=
  [dailyAssistant, creativePartner, researchAnalyst, learningCoach]

/-- `recipeById`: the id-keyed map built once from `RECIPES` (a JS `Map`,
rendered as an association list; the ids are pairwise distinct). -/
def recipeById : List (String × Recipe) :=
  RECIPES.map fun r => (r.id, r)

/-- `listRecipes` from src/onboarding/recipes.ts. -/
def listRecipes : List Recipe := RECIPES

/-- `getRecipe` from src/onboarding/recipes.ts: `recipeById.get(id)`,
`none` when the id is unknown. -/
def getRecipe (id : String) : Option Recipe :=
  (recipeById.find? fun kv => kv.1 = id).map fun kv => kv.2

/-- `listRecipeIds` from src/onboarding/recipes.ts. -/
def listRecipeIds : List String :=
  RECIPES.map fun r => r.id

/-! ## Persisted configuration and agent registry

The config helpers (`loadConfig`, `writeConfigFile`, `applyAgentConfig`,
`applyMinimaxApiConfig`, `listAgentEntries`, `findAgentEntryIndex`) and the
path/workspace helpers are imported by onboard-simple.ts but their code is
not in the visible sources; they are modelled from the spec (sections 3 and
4.4). -/

/-- Modelled from the spec: `AgentConfigEntry`, one entry of the persisted
agent registry (`{agentId, name, workspaceDir, agentDir, ...}`). -/
structure AgentEntry where
  agentId : String
  name : Option String
  workspace : Option String
  agentDir : Option String
  deriving DecidableEq, Repr

/-- Modelled from the spec: the slice of the persisted configuration
document the pipeline reads and writes — the agent registry, the default
workspace root, the default-model configuration, and the
connection-integration flag. -/
structure Config where
  agents : List AgentEntry
  defaultsWorkspace : Option String
  model : Option String
  composioEnabled : Option Bool
  deriving DecidableEq, Repr

/-- Modelled from the spec: `listAgentEntries` reads the registry out of the
configuration document. -/
def listAgentEntries (cfg : Config) : List AgentEntry := cfg.agents

/-- Modelled from the spec: `findAgentEntryIndex`, a linear scan of the
registry for the entry with the given agent id; `none` plays the role of the
source's `-1`. -/
def findAgentEntryIndex (entries : List AgentEntry) (agentId : String) : Option Nat :=
  match entries with
  | [] => none
  | e :: rest =>
    if e.agentId = agentId then some 0
    else (findAgentEntryIndex rest agentId).map fun i => i + 1

/-- The patch shape passed to `applyAgentConfig`: the agent id plus the
fields being merged. -/
structure AgentPatch where
  agentId : String
  name : Option String
  workspace : Option String
  agentDir : Option String
  deriving DecidableEq, Repr

/-- Merge a patch into an existing entry: present patch fields override,
absent ones are kept. -/
def mergeEntry (e : AgentEntry) (p : AgentPatch) : AgentEntry :=
  { agentId := e.agentId,
    name := p.name <|> e.name,
    workspace := p.workspace <|> e.workspace,
    agentDir := p.agentDir <|> e.agentDir }

/-- Modelled from the spec: `applyAgentConfig` upserts an agent entry into
the in-memory configuration — merging into the existing entry with that id,
or appending a new entry. -/
def applyAgentConfig (cfg : Config) (p : AgentPatch) : Config :=
  if (findAgentEntryIndex cfg.agents p.agentId).isSome then
    { cfg with agents := cfg.agents.map fun e =>
        if e.agentId = p.agentId then mergeEntry e p else e }
  else
    { cfg with agents := cfg.agents ++ [⟨p.agentId, p.name, p.workspace, p.agentDir⟩] }

/-- `SIMPLE_ONBOARD_MODEL` from onboard-simple.ts: the model reference
applied to every simple-onboarded agent. -/
def SIMPLE_ONBOARD_MODEL : String := "minimax/MiniMax-M2.5"

/-- Modelled from the spec: `applyMinimaxApiConfig` applies the fixed
default-model configuration to the document. -/
def applyMinimaxApiConfig (cfg : Config) : Config :=
  { cfg with model := some SIMPLE_ONBOARD_MODEL }

/-! ## Identifier and path helpers -/

/-- Modelled from the spec: the platform's reserved default-agent id
(`DEFAULT_AGENT_ID` from src/routing/session-key.ts, not in the visible
sources). -/
def DEFAULT_AGENT_ID : String := "main"

/-- Modelled from the spec: `normalizeAgentId`, the deterministic slug of a
bot name — trimmed, lower-cased, spaces to hyphens (`"Helper"` becomes
`"helper"`). -/
def normalizeAgentId (name : String) : String :=
  ⟨(jsTrim name).data.map fun c => if c = ' ' then '-' else c.toLower⟩

/-- Modelled from the spec: `resolveUserPath` expands a user-relative path;
the expansion is not observable by any claim, so it is the identity here. -/
def resolveUserPath (p : String) : String := p

/-- `path.join` restricted to the two-segment form the handler uses. -/
def joinPath (a b : String) : String := a ++ "/" ++ b

/-- Modelled from the spec: the per-agent session-transcripts directory
(`resolveSessionTranscriptsDirForAgent`, not in the visible sources). -/
def resolveSessionTranscriptsDirForAgent (agentId : String) : String :=
  "~/.openclaw/sessions/" ++ agentId

/-- Modelled from the spec: the per-agent agent directory
(`resolveAgentDir`, not in the visible sources). -/
def resolveAgentDir (_cfg : Config) (agentId : String) : String :=
  "~/.openclaw/agents/" ++ agentId

/-- Workspace file names; the source's comments in onboard-simple.ts name
them (IDENTITY.md, USER.md, SOUL.md, AGENTS.md, TOOLS.md). -/
def DEFAULT_IDENTITY_FILENAME : String := "IDENTITY.md"

/-- USER.md (see `DEFAULT_IDENTITY_FILENAME`). -/
def DEFAULT_USER_FILENAME : String := "USER.md"

/-- SOUL.md (see `DEFAULT_IDENTITY_FILENAME`). -/
def DEFAULT_SOUL_FILENAME : String := "SOUL.md"

/-- AGENTS.md (see `DEFAULT_IDENTITY_FILENAME`). -/
def DEFAULT_AGENTS_FILENAME : String := "AGENTS.md"

/-- TOOLS.md (see `DEFAULT_IDENTITY_FILENAME`). -/
def DEFAULT_TOOLS_FILENAME : String := "TOOLS.md"

/-! ## World state and side-effect trace -/

/-- A filesystem / config-store side effect performed by the handler, in
program order. -/
inductive FsEvent where
  | mkdir (path : String)
  | writeConfig (cfg : Config)
  | writeFile (path : String) (content : String)
  deriving DecidableEq, Repr

/-- Whether an event is a workspace-file write. -/
def FsEvent.isWriteFile : FsEvent → Bool
  | .writeFile _ _ => true
  | _ => false

/-- The state the handler observes and mutates: the set of existing
directories, the files on disk, and the persisted configuration document. -/
structure World where
  dirs : List String
  files : List (String × String)
  storedConfig : Config
  deriving DecidableEq, Repr

/-- Modelled from the spec: `loadConfig` reads the persisted document. -/
def loadConfig (w : World) : Config := w.storedConfig

/-- Apply one side effect to the world.  Directory creation is idempotent
(recursive mkdir / `ensureAgentWorkspace`: already-exists is not an error);
a file write overwrites any previous content at that path. -/
def applyEvent (w : World) : FsEvent → World
  | .mkdir p => if p ∈ w.dirs then w else { w with dirs := p :: w.dirs }
  | .writeConfig cfg => { w with storedConfig := cfg }
  | .writeFile p c => { w with files := (p, c) :: w.files.filter fun f => f.1 ≠ p }

/-- Apply a trace of side effects in order. -/
def applyEvents (w : World) (evs : List FsEvent) : World :=
  evs.foldl applyEvent w

/-! ## The onboard.simple handler (src/gateway/server-methods/onboard-simple.ts) -/

/-- Raw `onboard.simple` request params, before schema validation. -/
structure RawSimpleParams where
  userName : Option String
  botName : Option String
  recipeId : Option String
  entityId : Option String
  deriving DecidableEq, Repr

/-- Validated `onboard.simple` params (`OnboardSimpleParams`). -/
structure SimpleParams where
  userName : String
  botName : String
  recipeId : String
  entityId : Option String
  deriving DecidableEq, Repr

/-- `validateOnboardSimpleParams`, per `OnboardSimpleParamsSchema`
(src/gateway/protocol/schema/onboard-simple.ts): `userName`, `botName` and
`recipeId` are required non-empty strings, `entityId` is an optional
string.  Returns the parsed params on success. -/
def validateOnboardSimpleParams (p : RawSimpleParams) : Option SimpleParams :=
  match p.userName, p.botName, p.recipeId with
  | some u, some b, some r =>
    if u ≠ "" ∧ b ≠ "" ∧ r ≠ "" then some ⟨u, b, r, p.entityId⟩ else none
  | _, _, _ => none

/-- Split a character list into maximal whitespace-free words. -/
def splitWsAux : List Char → List Char → List (List Char)
  | [], acc => if acc.isEmpty then [] else [acc.reverse]
  | c :: rest, acc =>
    if c.isWhitespace then
      if acc.isEmpty then splitWsAux rest []
      else acc.reverse :: splitWsAux rest []
    else splitWsAux rest (c :: acc)

/-- `sanitizeLine` from onboard-simple.ts
(`value.replace(/\s+/g, " ").trim()`): collapse internal whitespace runs to
single spaces and trim, rendered as split-into-words and rejoin. -/
def sanitizeLine (value : String) : String :=
  String.intercalate " " ((splitWsAux value.data []).map fun w => (⟨w⟩ : String))

/-- A gateway response for `onboard.simple`: the success payload or an
`errorShape` failure `{code, message}`. -/
inductive SimpleResponse where
  | ok (agentId workspace recipeId model : String)
  | err (code : String) (message : String)
  deriving DecidableEq, Repr

/-- `ErrorCodes.INVALID_REQUEST`. -/
def INVALID_REQUEST : String := "INVALID_REQUEST"

/-- The `onboard.simple` handler: returns the response and the ordered trace
of side effects it performs.  Mirrors onboard-simple.ts lines 187-326:
validate params; resolve the recipe; normalize and check the agent id;
check uniqueness against the loaded config; build the next config; ensure
the workspace and transcripts directories; persist the config; write the
workspace files from the recipe. -/
def onboardSimple (w : World) (params : RawSimpleParams) :
    SimpleResponse × List FsEvent :=
  match validateOnboardSimpleParams params with
  | none => (.err INVALID_REQUEST "invalid onboard.simple params", [])
  | some p =>
    let botName := sanitizeLine p.botName
    let userName := sanitizeLine p.userName
    let recipeId := jsTrim p.recipeId
    let entityId := p.entityId.map fun e => jsTrim e
    match getRecipe recipeId with
    | none => (.err INVALID_REQUEST ("unknown recipe: \"" ++ recipeId ++ "\""), [])
    | some recipe =>
      let agentId := normalizeAgentId botName
      if agentId = DEFAULT_AGENT_ID then
        (.err INVALID_REQUEST ("\"" ++ DEFAULT_AGENT_ID ++ "\" is reserved"), [])
      else
        let cfg := loadConfig w
        if (findAgentEntryIndex (listAgentEntries cfg) agentId).isSome then
          (.err INVALID_REQUEST ("agent \"" ++ agentId ++ "\" already exists"), [])
        else
          let defaultWorkspaceBase := cfg.defaultsWorkspace.getD "~/.openclaw/workspace"
          let workspaceDir := resolveUserPath (joinPath defaultWorkspaceBase agentId)
          let nextConfig0 := applyAgentConfig cfg
            ⟨agentId, some botName, some workspaceDir, none⟩
          let agentDir := resolveAgentDir nextConfig0 agentId
          let nextConfig1 := applyAgentConfig nextConfig0 ⟨agentId, none, none, some agentDir⟩
          let nextConfig2 := applyMinimaxApiConfig nextConfig1
          let nextConfig :=
            match entityId with
            | some e =>
              if e = "" then nextConfig2 else { nextConfig2 with composioEnabled := some true }
            | none => nextConfig2
          let identityContent := String.intercalate "\n"
            ["# " ++ botName, "", "- Name: " ++ botName, "- Emoji: " ++ recipe.emoji,
             "- Creature: AI assistant", ""]
          let userContent := String.intercalate "\n"
            ["# USER.md - Who You're Helping", "", "- Name: " ++ userName, "",
             "_Update this file as you learn more about your user._", ""]
          let fileEvents :=
            [FsEvent.writeFile (joinPath workspaceDir DEFAULT_IDENTITY_FILENAME) identityContent,
             FsEvent.writeFile (joinPath workspaceDir DEFAULT_USER_FILENAME) userContent,
             FsEvent.writeFile (joinPath workspaceDir DEFAULT_SOUL_FILENAME) recipe.soul,
             FsEvent.writeFile (joinPath workspaceDir DEFAULT_AGENTS_FILENAME) recipe.agents] ++
            (match recipe.tools with
             | some tools => [FsEvent.writeFile (joinPath workspaceDir DEFAULT_TOOLS_FILENAME) tools]
             | none => [])
          (.ok agentId workspaceDir recipe.id SIMPLE_ONBOARD_MODEL,
           FsEvent.mkdir workspaceDir ::
             FsEvent.mkdir (resolveSessionTranscriptsDirForAgent agentId) ::
               FsEvent.writeConfig nextConfig :: fileEvents)

/-- Run the handler and fold its side effects into the world. -/
def runSimple (w : World) (params : RawSimpleParams) : SimpleResponse × World :=
  let r := onboardSimple w params
  (r.1, applyEvents w r.2)

/-! ### Named views of the handler's success branch (used to state theorems) -/

/-- The agent id a validated request normalizes to. -/
def simpleAgentId (p : SimpleParams) : String :=
  normalizeAgentId (sanitizeLine p.botName)

/-- The workspace directory the handler computes for a validated request. -/
def simpleWorkspaceDir (w : World) (p : SimpleParams) : String :=
  resolveUserPath (joinPath ((loadConfig w).defaultsWorkspace.getD "~/.openclaw/workspace")
    (simpleAgentId p))

/-- The configuration document the handler persists on success: agent entry,
agent dir, default model, and the connection-integration flag when a
non-empty entity id was supplied. -/
def simpleNextConfig (w : World) (p : SimpleParams) : Config :=
  let agentId := simpleAgentId p
  let cfg := loadConfig w
  let nextConfig0 := applyAgentConfig cfg
    ⟨agentId, some (sanitizeLine p.botName), some (simpleWorkspaceDir w p), none⟩
  let nextConfig1 := applyAgentConfig nextConfig0
    ⟨agentId, none, none, some (resolveAgentDir nextConfig0 agentId)⟩
  let nextConfig2 := applyMinimaxApiConfig nextConfig1
  match p.entityId.map fun e => jsTrim e with
  | some e => if e = "" then nextConfig2 else { nextConfig2 with composioEnabled := some true }
  | none => nextConfig2

/-- The workspace-file writes the handler performs on success, in program
order. -/
def simpleFileEvents (w : World) (p : SimpleParams) (recipe : Recipe) : List FsEvent :=
  let workspaceDir := simpleWorkspaceDir w p
  let botName := sanitizeLine p.botName
  [FsEvent.writeFile (joinPath workspaceDir DEFAULT_IDENTITY_FILENAME)
     (String.intercalate "\n"
       ["# " ++ botName, "", "- Name: " ++ botName, "- Emoji: " ++ recipe.emoji,
        "- Creature: AI assistant", ""]),
   FsEvent.writeFile (joinPath workspaceDir DEFAULT_USER_FILENAME)
     (String.intercalate "\n"
       ["# USER.md - Who You\x27re Helping", "", "- Name: " ++ sanitizeLine p.userName, "",
        "_Update this file as you learn more about your user._", ""]),
   FsEvent.writeFile (joinPath workspaceDir DEFAULT_SOUL_FILENAME) recipe.soul,
   FsEvent.writeFile (joinPath workspaceDir DEFAULT_AGENTS_FILENAME) recipe.agents] ++
  (match recipe.tools with
   | some tools => [FsEvent.writeFile (joinPath workspaceDir DEFAULT_TOOLS_FILENAME) tools]
   | none => [])

/-! ## Concrete instances used by witnesses and counterexamples -/

/-- A concrete broker oracle: initiation fails for SLACK and succeeds for
every other app; `get` reports an EXPIRED account. -/
def demoBroker : Broker where
  initiate := fun p =>
    if p.appName = "SLACK" then .error "Error: upstream failure"
    else .ok { connectedAccountId := "acc-" ++ p.appName,
               redirectUrl := some ("https://auth/" ++ p.appName) }
  get := fun accId =>
    .ok { id := .jstr accId, appName := .jstr "GMAIL", app := .jundef,
          status := .jstr "EXPIRED", createdAt := .jundef, updatedAt := .jundef }

/-- A two-app `connect_multiple` request (slack will fail on `demoBroker`). -/
def cmDemoParams : ToolParams :=
  ⟨"connect_multiple", none, none, some ["gmail", "slack"], none, none⟩

/-- A `connect_multiple` request with no app names at all. -/
def noNamesParams : ToolParams :=
  ⟨"connect_multiple", none, none, none, none, none⟩

/-- A `connect_multiple` request with a singular `appName` only. -/
def singleNameParams : ToolParams :=
  ⟨"connect_multiple", none, some "gmail", none, none, none⟩

/-- A `connect_multiple` request whose batch exceeds the default cap of 20. -/
def overCapParams : ToolParams :=
  ⟨"connect_multiple", none, none, some (List.replicate 21 "GMAIL"), none, none⟩

/-- A `connect` request for "gmail" (lower case on purpose). -/
def connectGmailParams : ToolParams :=
  ⟨"connect", none, some "gmail", none, none, none⟩

/-- A `status` request for account "acc-1". -/
def statusDemoParams : ToolParams :=
  ⟨"status", none, none, none, some "acc-1", none⟩

/-- An empty world: no directories, no files, empty registry. -/
def demoWorld : World := ⟨[], [], ⟨[], none, none, none⟩⟩

/-- Scenario A request: Ada onboards "Helper" with the daily-assistant recipe. -/
def demoSimpleParams : RawSimpleParams :=
  ⟨some "Ada", some "Helper", some "daily-assistant", none⟩

/-- Params failing schema validation (all fields missing). -/
def invalidSimpleParams : RawSimpleParams := ⟨none, none, none, none⟩

/-- Scenario B request: an unknown recipe id. -/
def unknownRecipeParams : RawSimpleParams :=
  ⟨some "Ada", some "Helper", some "does-not-exist", none⟩

/-- A request whose bot name normalizes to the reserved default-agent id. -/
def reservedParams : RawSimpleParams :=
  ⟨some "Ada", some "Main", some "daily-assistant", none⟩

/-- A world whose registry already holds the agent id "helper". -/
def dupWorld : World := ⟨[], [], ⟨[⟨"helper", none, none, none⟩], none, none, none⟩⟩

/-- The validated form of `demoSimpleParams`. -/
def pAda : SimpleParams := ⟨"Ada", "Helper", "daily-assistant", none⟩

/-- A config whose apiKey resolves to "k1". -/
def cfgK1 : Option ComposioConfig := some ⟨none, some "k1", none, none, none⟩

/-- A config whose apiKey resolves to "k2". -/
def cfgK2 : Option ComposioConfig := some ⟨none, some "k2", none, none, none⟩

/-- An empty environment (no COMPOSIO_API_KEY / COMPOSIO_BASE_URL). -/
def emptyEnv : Env := ⟨none, none⟩

/-- The pristine client-cache state. -/
def st0 : ClientCache := ⟨none, none, none, 0⟩

/-! ## Theorems -/

/-- C1: For every non-empty `appNames` batch within the cap,
`connect_multiple` returns one result per input name, in input order (the
result list is the input list mapped through the per-item resolver), and
each item independently resolves to the success shape (`appName`,
`connectedAccountId`, `redirectUrl`, `error:null`) when its initiation
succeeds, and to the failure shape (`connectedAccountId:null`,
`redirectUrl:null`, `error:<message>`) when it fails; in particular, when
exactly item k's initiation fails and all others succeed, exactly item k
carries a non-null error, and no other item is aborted or altered. -/
theorem connect_multiple_per_item_isolation
    (config : Option ComposioConfig) (broker : Broker) (entityId : String)
    (params : ToolParams) (names : List String)
    (hnames : resolveAppNames params = some names)
    (hne : names ≠ [])
    (hcap : names.length ≤ maxAccounts config) :
    (connectMultipleCase config broker entityId params).1 =
      .ok (names.map (connectItem broker entityId params.redirectUri)) ∧
    (names.map (connectItem broker entityId params.redirectUri)).length = names.length ∧
    ∀ name : String,
      (∀ raw, broker.initiate (initiateCall ⟨entityId, name, params.redirectUri⟩) = .ok raw →
        connectItem broker entityId params.redirectUri name =
          ⟨jsToUpper name, some raw.connectedAccountId, some (raw.redirectUrl.getD ""),
           some (raw.redirectUrl.getD ""), none⟩) ∧
      (∀ err, broker.initiate (initiateCall ⟨entityId, name, params.redirectUri⟩) = .error err →
        connectItem broker entityId params.redirectUri name =
          ⟨jsToUpper name, none, none, none, some err⟩) := by
  have h0 : ¬ names.length = 0 := by
    intro h
    exact hne (List.length_eq_zero.mp h)
  have h1 : ¬ names.length > maxAccounts config := Nat.not_lt.mpr hcap
  refine ⟨?_, List.length_map _ _, ?_⟩
  · simp [connectMultipleCase, hnames, h0, h1]
  · intro name
    refine ⟨fun raw hraw => ?_, fun err herr => ?_⟩
    · simp [connectItem, initiateConnection, hraw]
    · simp [connectItem, initiateConnection, herr]

/-- C1 witness: on the concrete two-app batch against `demoBroker`, the
result is the input list mapped through the per-item resolver. -/
theorem connect_multiple_per_item_isolation_witness :
    (connectMultipleCase none demoBroker "u1" cmDemoParams).1 =
      .ok (["gmail", "slack"].map (connectItem demoBroker "u1" none)) :=
  (connect_multiple_per_item_isolation none demoBroker "u1" cmDemoParams
    ["gmail", "slack"] rfl (by decide) (by decide)).1

/-- C3: an empty (or unresolvable) batch, and a batch larger than the
configured cap (`maxAccountsPerUser`, default 20), are rejected whole with
an error and an empty broker-call trace — no partial initiations. -/
theorem connect_multiple_rejects_bad_batch
    (config : Option ComposioConfig) (broker : Broker) (entityId : String)
    (params : ToolParams) :
    ((resolveAppNames params = none ∨ resolveAppNames params = some []) →
      connectMultipleCase config broker entityId params =
        (.error "appNames required for connect_multiple", [])) ∧
    (∀ names, resolveAppNames params = some names →
      names.length > maxAccounts config →
      connectMultipleCase config broker entityId params =
        (.error ("Cannot connect more than " ++ toString (maxAccounts config) ++
          " services at once"), [])) := by
  constructor
  · rintro (h | h) <;> simp [connectMultipleCase, h]
  · intro names h hlen
    have h0 : ¬ names.length = 0 := by omega
    simp [connectMultipleCase, h, h0, hlen]

/-- C3 witness: the empty batch and a 21-name batch are both rejected with
no broker call. -/
theorem connect_multiple_rejects_bad_batch_witness :
    connectMultipleCase none demoBroker "u1" noNamesParams =
      (.error "appNames required for connect_multiple", []) ∧
    connectMultipleCase none demoBroker "u1" overCapParams =
      (.error ("Cannot connect more than " ++ toString (maxAccounts none) ++
        " services at once"), []) :=
  ⟨(connect_multiple_rejects_bad_batch none demoBroker "u1" noNamesParams).1 (Or.inl rfl),
   (connect_multiple_rejects_bad_batch none demoBroker "u1" overCapParams).2
     (List.replicate 21 "GMAIL") rfl (by decide)⟩

/-- C10: with `appNames` omitted but a non-empty singular `appName` present,
`connect_multiple` treats the request as a batch of exactly that one name;
the appNames-required error occurs exactly when both are absent (an empty
`appName` string is falsy, hence absent to the JS conditional) or when
`appNames` is present but empty. -/
theorem connect_multiple_single_appname_fallback
    (config : Option ComposioConfig) (broker : Broker) (entityId : String) :
    (∀ params : ToolParams, ∀ name : String, params.appNames = none →
      params.appName = some name → name ≠ "" → 1 ≤ maxAccounts config →
      resolveAppNames params = some [name] ∧
      connectMultipleCase config broker entityId params =
        (.ok [connectItem broker entityId params.redirectUri name],
         [initiateCall ⟨entityId, name, params.redirectUri⟩])) ∧
    (∀ params : ToolParams, params.appNames = none →
      (params.appName = none ∨ params.appName = some "") →
      connectMultipleCase config broker entityId params =
        (.error "appNames required for connect_multiple", [])) ∧
    (∀ params : ToolParams, params.appNames = some [] →
      connectMultipleCase config broker entityId params =
        (.error "appNames required for connect_multiple", [])) := by
  refine ⟨?_, ?_, ?_⟩
  · intro params name hnone hsome hne hcap
    have hres : resolveAppNames params = some [name] := by
      simp [resolveAppNames, hnone, hsome, hne]
    have h1 : ¬ ([name].length > maxAccounts config) := by
      simp only [List.length_singleton]
      omega
    refine ⟨hres, ?_⟩
    simp only [connectMultipleCase, hres]
    rw [if_neg (by simp), if_neg h1]
    simp
  · intro params hnone hname
    have hres : resolveAppNames params = none := by
      rcases hname with h | h <;> simp [resolveAppNames, hnone, h]
    simp [connectMultipleCase, hres]
  · intro params h
    have hres : resolveAppNames params = some [] := by
      simp [resolveAppNames, h]
    simp [connectMultipleCase, hres]

/-- C10 witness: `appName:"gmail"` alone is a batch of one; no names at all
is the appNames-required error. -/
theorem connect_multiple_single_appname_fallback_witness :
    (resolveAppNames singleNameParams = some ["gmail"] ∧
      connectMultipleCase none demoBroker "u1" singleNameParams =
        (.ok [connectItem demoBroker "u1" none "gmail"],
         [initiateCall ⟨"u1", "gmail", none⟩])) ∧
    connectMultipleCase none demoBroker "u1" noNamesParams =
      (.error "appNames required for connect_multiple", []) :=
  ⟨(connect_multiple_single_appname_fallback none demoBroker "u1").1
      singleNameParams "gmail" rfl rfl (by decide) (by decide),
   (connect_multiple_single_appname_fallback none demoBroker "u1").2.1
      noNamesParams rfl (Or.inl rfl)⟩

/-- C6: for every connected-account id, when the broker reports a string
status, `getConnectionStatus` echoes that status verbatim (no local cache,
no override — the result is a pure mapping of the broker's report at the
moment of the call), and the tool's `status` case passes the result through
unchanged. -/
theorem status_broker_passthrough
    (broker : Broker) (accId : String) (raw : RawAccount) (s : String)
    (hget : broker.get accId = .ok raw)
    (hs : raw.status = .jstr s) :
    getConnectionStatus broker accId =
      .ok { id := toStr raw.id accId,
            appName := jsOr (toStr raw.appName "") (toStr raw.app ""),
            status := s,
            createdAt := toStr raw.createdAt "",
            updatedAt := toStr raw.updatedAt "" } ∧
    ∀ params : ToolParams, params.connectedAccountId = some accId →
      statusCase broker params = getConnectionStatus broker accId := by
  constructor
  · simp [getConnectionStatus, hget, hs, toStr]
  · intro params hp
    simp [statusCase, hp]

/-- C6 witness: when `demoBroker` reports status "EXPIRED" for "acc-1", the
status operation echoes "EXPIRED" verbatim. -/
theorem status_broker_passthrough_witness :
    getConnectionStatus demoBroker "acc-1" =
      .ok { id := toStr (JsPrim.jstr "acc-1") "acc-1",
            appName := jsOr (toStr (JsPrim.jstr "GMAIL") "") (toStr JsPrim.jundef ""),
            status := "EXPIRED",
            createdAt := toStr JsPrim.jundef "",
            updatedAt := toStr JsPrim.jundef "" } ∧
    ∀ params : ToolParams, params.connectedAccountId = some "acc-1" →
      statusCase demoBroker params = getConnectionStatus demoBroker "acc-1" :=
  status_broker_passthrough demoBroker "acc-1"
    ⟨.jstr "acc-1", .jstr "GMAIL", .jundef, .jstr "EXPIRED", .jundef, .jundef⟩
    "EXPIRED" rfl rfl

/-- C7 counterexample: `connect(entityId:"u1", appName:"gmail")` succeeds
but the payload's `appName` is the request's "gmail", not the normalized
"GMAIL" — the operation does not return the upper-cased app name. -/
theorem connect_appname_not_normalized_cex :
    (connectCase demoBroker "u1" connectGmailParams).1 =
      .ok ⟨"acc-GMAIL", "https://auth/GMAIL",
           "Send the following link to the user to authorize gmail:",
           "https://auth/GMAIL", "gmail"⟩ ∧
    ("gmail" : String) ≠ jsToUpper "gmail" :=
  ⟨rfl, by decide⟩

/-- C7 (amended): `connect` returns the InitiateResult together with the app
name exactly as provided in the request (not normalized), and the app name
is upper-cased before submission to the broker (the submitted call carries
the upper-cased name, in the success and in the failure case alike). -/
theorem connect_returns_given_name_submits_uppercased
    (broker : Broker) (entityId : String) (params : ToolParams) (appName : String)
    (hname : params.appName = some appName) :
    (connectCase broker entityId params).2 =
      [⟨entityId, jsToUpper appName, params.redirectUri⟩] ∧
    ∀ raw, broker.initiate ⟨entityId, jsToUpper appName, params.redirectUri⟩ = .ok raw →
      (connectCase broker entityId params).1 =
        .ok ⟨raw.connectedAccountId, raw.redirectUrl.getD "",
             "Send the following link to the user to authorize " ++ appName ++ ":",
             raw.redirectUrl.getD "", appName⟩ := by
  constructor
  · simp only [connectCase, hname]
    rcases h : initiateConnection broker ⟨entityId, appName, params.redirectUri⟩ with e | r <;>
      simp [h, initiateCall]
  · intro raw hraw
    have hcall : initiateCall ⟨entityId, appName, params.redirectUri⟩ =
        ⟨entityId, jsToUpper appName, params.redirectUri⟩ := rfl
    simp [connectCase, hname, initiateConnection, hcall, hraw]

/-- C7 amended witness: connecting "gmail" submits "GMAIL" to the broker and
returns the payload carrying "gmail". -/
theorem connect_returns_given_name_submits_uppercased_witness :
    (connectCase demoBroker "u1" connectGmailParams).2 =
      [⟨"u1", jsToUpper "gmail", none⟩] ∧
    ∀ raw, demoBroker.initiate ⟨"u1", jsToUpper "gmail", none⟩ = .ok raw →
      (connectCase demoBroker "u1" connectGmailParams).1 =
        .ok ⟨raw.connectedAccountId, raw.redirectUrl.getD "",
             "Send the following link to the user to authorize " ++ "gmail" ++ ":",
             raw.redirectUrl.getD "", "gmail"⟩ :=
  connect_returns_given_name_submits_uppercased demoBroker "u1" connectGmailParams "gmail" rfl

/-- C8: `getComposioClient` returns `none` (not an error) when no API key
resolves, leaving the cache untouched; when a key resolves, a second
consecutive call resolving to the same `(apiKey, baseUrl)` pair returns the
identical cached instance and leaves the state unchanged; a call resolving
to a pair different from the cached one constructs a fresh client (a new
allocation, distinct from any cached one) and replaces the cache wholesale;
and after `clearComposioClient` the next call constructs a fresh client. -/
theorem client_cache_behaviour :
    (∀ config env st, resolveApiKey config env = none →
      getComposioClient config env st = (none, st)) ∧
    (∀ config1 env1 config2 env2 st k,
      resolveApiKey config1 env1 = some k →
      resolveApiKey config2 env2 = some k →
      resolveBaseUrl config2 env2 = resolveBaseUrl config1 env1 →
      getComposioClient config2 env2 (getComposioClient config1 env1 st).2 =
        ((getComposioClient config1 env1 st).1, (getComposioClient config1 env1 st).2)) ∧
    (∀ config env st k, resolveApiKey config env = some k →
      ¬ (st.cachedClient.isSome ∧ st.cachedApiKey = some k ∧
          st.cachedBaseUrl = resolveBaseUrl config env) →
      getComposioClient config env st =
        (some st.nextId,
         ⟨some st.nextId, some k, resolveBaseUrl config env, st.nextId + 1⟩) ∧
      (st.WF → ∀ c, st.cachedClient = some c → st.nextId ≠ c)) ∧
    (∀ config env st k, resolveApiKey config env = some k →
      getComposioClient config env (clearComposioClient st) =
        (some st.nextId,
         ⟨some st.nextId, some k, resolveBaseUrl config env, st.nextId + 1⟩)) := by
  refine ⟨?_, ?_, ?_, ?_⟩
  · intro config env st h
    simp [getComposioClient, h]
  · intro config1 env1 config2 env2 st k h1 h2 hurl
    by_cases hhit : st.cachedClient.isSome ∧ st.cachedApiKey = some k ∧
        st.cachedBaseUrl = resolveBaseUrl config1 env1
    · obtain ⟨hc, hk, hu⟩ := hhit
      simp [getComposioClient, h1, h2, hurl, hc, hk, hu]
    · simp only [getComposioClient, h1, h2]
      rw [if_neg hhit]
      simp [hurl]
  · intro config env st k h hmiss
    constructor
    · simp only [getComposioClient, h]
      rw [if_neg hmiss]
    · intro hwf c hc
      exact Nat.ne_of_gt (hwf c hc)
  · intro config env st k h
    simp [getComposioClient, h, clearComposioClient]

/-- C8 witness: from the pristine cache, a missing key returns `none` and no
change; with key "k1" a repeated call returns the same instance; a call with
key "k2" against the "k1"-cache allocates a replacement; after a clear the
next call allocates afresh. -/
theorem client_cache_behaviour_witness :
    getComposioClient none emptyEnv st0 = (none, st0) ∧
    getComposioClient cfgK1 emptyEnv (getComposioClient cfgK1 emptyEnv st0).2 =
      ((getComposioClient cfgK1 emptyEnv st0).1, (getComposioClient cfgK1 emptyEnv st0).2) ∧
    getComposioClient cfgK2 emptyEnv ⟨some 0, some "k1", none, 1⟩ =
      (some 1, ⟨some 1, some "k2", resolveBaseUrl cfgK2 emptyEnv, 2⟩) ∧
    getComposioClient cfgK1 emptyEnv (clearComposioClient ⟨some 0, some "k1", none, 1⟩) =
      (some 1, ⟨some 1, some "k1", resolveBaseUrl cfgK1 emptyEnv, 2⟩) :=
  ⟨client_cache_behaviour.1 none emptyEnv st0 rfl,
   client_cache_behaviour.2.1 cfgK1 emptyEnv cfgK1 emptyEnv st0 "k1" rfl rfl rfl,
   (client_cache_behaviour.2.2.1 cfgK2 emptyEnv ⟨some 0, some "k1", none, 1⟩ "k2" rfl
     (by decide)).1,
   client_cache_behaviour.2.2.2 cfgK1 emptyEnv ⟨some 0, some "k1", none, 1⟩ "k1" rfl⟩

/-- C9: `getRecipe` is pure and deterministic — the identical id always
yields the identical recipe object; an id is found exactly when it is in the
catalogue's id list; a found recipe carries the requested id and belongs to
the catalogue; an unknown id yields `none` (never an exception: the function
is total by construction). -/
theorem getRecipe_pure_lookup : ∀ id : String,
    getRecipe id = getRecipe id ∧
    ((getRecipe id).isSome ↔ id ∈ listRecipeIds) ∧
    ∀ r, getRecipe id = some r → r.id = id ∧ r ∈ listRecipes := by
  intro id
  refine ⟨rfl, ?_, ?_⟩
  · by_cases h1 : id = "daily-assistant"
    · subst h1
      simp [getRecipe, recipeById, RECIPES, listRecipeIds, dailyAssistant,
        creativePartner, researchAnalyst, learningCoach]
    · by_cases h2 : id = "creative-partner"
      · subst h2
        simp [getRecipe, recipeById, RECIPES, listRecipeIds, dailyAssistant,
          creativePartner, researchAnalyst, learningCoach]
      · by_cases h3 : id = "research-analyst"
        · subst h3
          simp [getRecipe, recipeById, RECIPES, listRecipeIds, dailyAssistant,
            creativePartner, researchAnalyst, learningCoach]
        · by_cases h4 : id = "learning-coach"
          · subst h4
            simp [getRecipe, recipeById, RECIPES, listRecipeIds, dailyAssistant,
              creativePartner, researchAnalyst, learningCoach]
          · have : getRecipe id = none := by
              simp only [getRecipe, recipeById, RECIPES, List.map, List.find?]
              have e1 : (dailyAssistant.id = id) = False := by
                simp [dailyAssistant, Ne.symm h1]
              have e2 : (creativePartner.id = id) = False := by
                simp [creativePartner, Ne.symm h2]
              have e3 : (researchAnalyst.id = id) = False := by
                simp [researchAnalyst, Ne.symm h3]
              have e4 : (learningCoach.id = id) = False := by
                simp [learningCoach, Ne.symm h4]
              simp [e1, e2, e3, e4]
            simp [this, listRecipeIds, RECIPES, dailyAssistant, creativePartner,
              researchAnalyst, learningCoach, h1, h2, h3, h4]
  · intro r hr
    by_cases h1 : id = "daily-assistant"
    · subst h1
      have : r = dailyAssistant := by
        have : getRecipe "daily-assistant" = some dailyAssistant := rfl
        rw [this] at hr
        exact (Option.some_injective _ hr).symm
      subst this
      exact ⟨rfl, by simp [listRecipes, RECIPES]⟩
    · by_cases h2 : id = "creative-partner"
      · subst h2
        have : r = creativePartner := by
          have : getRecipe "creative-partner" = some creativePartner := rfl
          rw [this] at hr
          exact (Option.some_injective _ hr).symm
        subst this
        exact ⟨rfl, by simp [listRecipes, RECIPES]⟩
      · by_cases h3 : id = "research-analyst"
        · subst h3
          have : r = researchAnalyst := by
            have : getRecipe "research-analyst" = some researchAnalyst := rfl
            rw [this] at hr
            exact (Option.some_injective _ hr).symm
          subst this
          exact ⟨rfl, by simp [listRecipes, RECIPES]⟩
        · by_cases h4 : id = "learning-coach"
          · subst h4
            have : r = learningCoach := by
              have : getRecipe "learning-coach" = some learningCoach := rfl
              rw [this] at hr
              exact (Option.some_injective _ hr).symm
            subst this
            exact ⟨rfl, by simp [listRecipes, RECIPES]⟩
          · exfalso
            have : getRecipe id = none := by
              simp only [getRecipe, recipeById, RECIPES, List.map, List.find?]
              have e1 : (dailyAssistant.id = id) = False := by
                simp [dailyAssistant, Ne.symm h1]
              have e2 : (creativePartner.id = id) = False := by
                simp [creativePartner, Ne.symm h2]
              have e3 : (researchAnalyst.id = id) = False := by
                simp [researchAnalyst, Ne.symm h3]
              have e4 : (learningCoach.id = id) = False := by
                simp [learningCoach, Ne.symm h4]
              simp [e1, e2, e3, e4]
            rw [this] at hr
            exact Option.noConfusion hr

/-- C9 witness: a known id is found and carries its id; an unknown id yields
`none`. -/
theorem getRecipe_pure_lookup_witness :
    ((getRecipe "daily-assistant").isSome ↔ "daily-assistant" ∈ listRecipeIds) ∧
    (∀ r, getRecipe "daily-assistant" = some r →
      r.id = "daily-assistant" ∧ r ∈ listRecipes) ∧
    ((getRecipe "does-not-exist").isSome ↔ "does-not-exist" ∈ listRecipeIds) :=
  ⟨(getRecipe_pure_lookup "daily-assistant").2.1,
   (getRecipe_pure_lookup "daily-assistant").2.2,
   (getRecipe_pure_lookup "does-not-exist").2.1⟩

/-! ### Helper lemmas for the provisioning pipeline -/

theorem applyEvents_cons (w : World) (e : FsEvent) (evs : List FsEvent) :
    applyEvents w (e :: evs) = applyEvents (applyEvent w e) evs := rfl

theorem applyEvents_nil (w : World) : applyEvents w [] = w := rfl

theorem applyEvent_writeFile_storedConfig (w : World) (p c : String) :
    (applyEvent w (FsEvent.writeFile p c)).storedConfig = w.storedConfig := rfl

theorem applyEvents_writeFiles_storedConfig (evs : List FsEvent)
    (h : ∀ e ∈ evs, e.isWriteFile = true) (w : World) :
    (applyEvents w evs).storedConfig = w.storedConfig := by
  induction evs generalizing w with
  | nil => rfl
  | cons e rest ih =>
    have he := h e (by simp)
    have hrest : ∀ x ∈ rest, x.isWriteFile = true := fun x hx => h x (by simp [hx])
    cases e with
    | writeFile p c =>
      rw [applyEvents_cons, ih hrest, applyEvent_writeFile_storedConfig]
    | mkdir p => simp [FsEvent.isWriteFile] at he
    | writeConfig c => simp [FsEvent.isWriteFile] at he

theorem applyEvents_trace_storedConfig (w : World) (d1 d2 : String) (cfg : Config)
    (files : List FsEvent) (h : ∀ e ∈ files, e.isWriteFile = true) :
    (applyEvents w (FsEvent.mkdir d1 :: FsEvent.mkdir d2 ::
      FsEvent.writeConfig cfg :: files)).storedConfig = cfg := by
  rw [applyEvents_cons, applyEvents_cons, applyEvents_cons,
    applyEvents_writeFiles_storedConfig files h]
  rfl

theorem findAgentEntryIndex_isSome_iff (entries : List AgentEntry) (agentId : String) :
    (findAgentEntryIndex entries agentId).isSome ↔ ∃ e ∈ entries, e.agentId = agentId := by
  induction entries with
  | nil => simp [findAgentEntryIndex]
  | cons e rest ih =>
    by_cases h : e.agentId = agentId
    · simp [findAgentEntryIndex, h]
    · simp only [findAgentEntryIndex, h, if_false, List.mem_cons]
      rw [Option.isSome_map']
      simp [ih, h]

theorem applyAgentConfig_mem (cfg : Config) (p : AgentPatch) :
    ∃ e ∈ (applyAgentConfig cfg p).agents, e.agentId = p.agentId := by
  unfold applyAgentConfig
  split
  · rename_i h
    obtain ⟨e0, he0, hid⟩ := (findAgentEntryIndex_isSome_iff cfg.agents p.agentId).mp h
    refine ⟨mergeEntry e0 p, ?_, by simp [mergeEntry, hid]⟩
    have hmap := List.mem_map_of_mem
      (fun e => if e.agentId = p.agentId then mergeEntry e p else e) he0
    simpa [hid] using hmap
  · exact ⟨⟨p.agentId, p.name, p.workspace, p.agentDir⟩, by simp, rfl⟩

theorem simpleNextConfig_mem (w : World) (p : SimpleParams) :
    ∃ e ∈ (simpleNextConfig w p).agents, e.agentId = simpleAgentId p := by
  have h := applyAgentConfig_mem
    (applyAgentConfig (loadConfig w)
      ⟨simpleAgentId p, some (sanitizeLine p.botName), some (simpleWorkspaceDir w p), none⟩)
    ⟨simpleAgentId p, none, none,
     some (resolveAgentDir (applyAgentConfig (loadConfig w)
       ⟨simpleAgentId p, some (sanitizeLine p.botName), some (simpleWorkspaceDir w p), none⟩)
       (simpleAgentId p))⟩
  unfold simpleNextConfig
  cases hp : p.entityId.map fun e => jsTrim e with
  | none => simpa [applyMinimaxApiConfig] using h
  | some e =>
    by_cases he : e = ""
    · simpa [he, applyMinimaxApiConfig] using h
    · simpa [he, applyMinimaxApiConfig] using h

theorem simpleFileEvents_writeFiles (w : World) (p : SimpleParams) (recipe : Recipe) :
    ∀ e ∈ simpleFileEvents w p recipe, e.isWriteFile = true := by
  intro e he
  cases ht : recipe.tools with
  | none =>
    simp [simpleFileEvents, ht] at he
    rcases he with h | h | h | h <;> subst h <;> rfl
  | some tools =>
    simp [simpleFileEvents, ht] at he
    rcases he with h | h | h | h | h <;> subst h <;> rfl

/-! ### Branch characterizations of the onboard.simple handler -/

theorem onboardSimple_invalid_eq (w : World) (params : RawSimpleParams)
    (hv : validateOnboardSimpleParams params = none) :
    onboardSimple w params = (.err INVALID_REQUEST "invalid onboard.simple params", []) := by
  simp [onboardSimple, hv]

theorem onboardSimple_unknownRecipe_eq (w : World) (params : RawSimpleParams)
    (p : SimpleParams) (hv : validateOnboardSimpleParams params = some p)
    (hr : getRecipe (jsTrim p.recipeId) = none) :
    onboardSimple w params =
      (.err INVALID_REQUEST ("unknown recipe: \"" ++ jsTrim p.recipeId ++ "\""), []) := by
  simp [onboardSimple, hv, hr]

theorem onboardSimple_reserved_eq (w : World) (params : RawSimpleParams)
    (p : SimpleParams) (recipe : Recipe)
    (hv : validateOnboardSimpleParams params = some p)
    (hr : getRecipe (jsTrim p.recipeId) = some recipe)
    (hres : simpleAgentId p = DEFAULT_AGENT_ID) :
    onboardSimple w params =
      (.err INVALID_REQUEST ("\"" ++ DEFAULT_AGENT_ID ++ "\" is reserved"), []) := by
  simp [onboardSimple, hv, hr, simpleAgentId] at hres ⊢
  simp [hres]

theorem onboardSimple_dup_eq (w : World) (params : RawSimpleParams)
    (p : SimpleParams) (recipe : Recipe)
    (hv : validateOnboardSimpleParams params = some p)
    (hr : getRecipe (jsTrim p.recipeId) = some recipe)
    (hres : simpleAgentId p ≠ DEFAULT_AGENT_ID)
    (hdup : (findAgentEntryIndex (listAgentEntries (loadConfig w)) (simpleAgentId p)).isSome) :
    onboardSimple w params =
      (.err INVALID_REQUEST ("agent \"" ++ simpleAgentId p ++ "\" already exists"), []) := by
  simp only [onboardSimple, hv, hr, simpleAgentId] at hres hdup ⊢
  rw [if_neg hres, if_pos hdup]

theorem onboardSimple_success_eq (w : World) (params : RawSimpleParams)
    (p : SimpleParams) (recipe : Recipe)
    (hv : validateOnboardSimpleParams params = some p)
    (hr : getRecipe (jsTrim p.recipeId) = some recipe)
    (hres : simpleAgentId p ≠ DEFAULT_AGENT_ID)
    (hdup : findAgentEntryIndex (listAgentEntries (loadConfig w)) (simpleAgentId p) = none) :
    onboardSimple w params =
      (.ok (simpleAgentId p) (simpleWorkspaceDir w p) recipe.id SIMPLE_ONBOARD_MODEL,
       FsEvent.mkdir (simpleWorkspaceDir w p) ::
         FsEvent.mkdir (resolveSessionTranscriptsDirForAgent (simpleAgentId p)) ::
           FsEvent.writeConfig (simpleNextConfig w p) :: simpleFileEvents w p recipe) := by
  simp only [onboardSimple, hv, hr, simpleAgentId] at hres hdup ⊢
  rw [if_neg hres, if_neg (by simp [hdup])]
  simp [simpleWorkspaceDir, simpleNextConfig, simpleFileEvents, simpleAgentId]

/-- C2: two `onboard.simple` calls with the same botName: the first
succeeds (returning the normalized agent id, the computed workspace, the
recipe id and the fixed model), and the second fails with the
duplicate-agent INVALID_REQUEST error while performing no side effect — the
world produced by the first call is returned unchanged. -/
theorem onboard_simple_duplicate_second_call
    (w : World) (params : RawSimpleParams) (p : SimpleParams) (recipe : Recipe)
    (hv : validateOnboardSimpleParams params = some p)
    (hr : getRecipe (jsTrim p.recipeId) = some recipe)
    (hres : simpleAgentId p ≠ DEFAULT_AGENT_ID)
    (hdup : findAgentEntryIndex (listAgentEntries (loadConfig w)) (simpleAgentId p) = none) :
    (runSimple w params).1 =
      .ok (simpleAgentId p) (simpleWorkspaceDir w p) recipe.id SIMPLE_ONBOARD_MODEL ∧
    runSimple (runSimple w params).2 params =
      (.err INVALID_REQUEST ("agent \"" ++ simpleAgentId p ++ "\" already exists"),
       (runSimple w params).2) := by
  have h1 := onboardSimple_success_eq w params p recipe hv hr hres hdup
  constructor
  · simp [runSimple, h1]
  · have hw1cfg : ((runSimple w params).2).storedConfig = simpleNextConfig w p := by
      simp only [runSimple, h1]
      exact applyEvents_trace_storedConfig _ _ _ _ _ (simpleFileEvents_writeFiles w p recipe)
    have hdup2 : (findAgentEntryIndex
        (listAgentEntries (loadConfig (runSimple w params).2)) (simpleAgentId p)).isSome := by
      show (findAgentEntryIndex ((runSimple w params).2).storedConfig.agents
        (simpleAgentId p)).isSome
      rw [hw1cfg, findAgentEntryIndex_isSome_iff]
      exact simpleNextConfig_mem w p
    have h2 := onboardSimple_dup_eq ((runSimple w params).2) params p recipe hv hr hres hdup2
    calc runSimple (runSimple w params).2 params
        = ((onboardSimple (runSimple w params).2 params).1,
           applyEvents (runSimple w params).2
             (onboardSimple (runSimple w params).2 params).2) := rfl
      _ = (.err INVALID_REQUEST ("agent \"" ++ simpleAgentId p ++ "\" already exists"),
           (runSimple w params).2) := by rw [h2]; rfl

/-- C2 witness: onboarding "Helper" twice from the empty world — first ok,
second duplicate-agent error with the world untouched. -/
theorem onboard_simple_duplicate_second_call_witness :
    (runSimple demoWorld demoSimpleParams).1 =
      .ok (simpleAgentId pAda) (simpleWorkspaceDir demoWorld pAda)
        dailyAssistant.id SIMPLE_ONBOARD_MODEL ∧
    runSimple (runSimple demoWorld demoSimpleParams).2 demoSimpleParams =
      (.err INVALID_REQUEST ("agent \"" ++ simpleAgentId pAda ++ "\" already exists"),
       (runSimple demoWorld demoSimpleParams).2) :=
  onboard_simple_duplicate_second_call demoWorld demoSimpleParams pAda dailyAssistant
    rfl rfl (by decide) rfl

/-- C4: every validation or lookup failure before the config is computed —
invalid params, unknown recipe (with the exact message
`unknown recipe: "<id>"`), reserved agent id, duplicate agent id — returns
an INVALID_REQUEST failure with an empty side-effect trace, so the world is
unchanged: no directory created, no file written, no config persisted. -/
theorem onboard_simple_early_failure_no_side_effect :
    (∀ w params, validateOnboardSimpleParams params = none →
      onboardSimple w params = (.err INVALID_REQUEST "invalid onboard.simple params", []) ∧
      (runSimple w params).2 = w) ∧
    (∀ w params p, validateOnboardSimpleParams params = some p →
      getRecipe (jsTrim p.recipeId) = none →
      onboardSimple w params =
        (.err INVALID_REQUEST ("unknown recipe: \"" ++ jsTrim p.recipeId ++ "\""), []) ∧
      (runSimple w params).2 = w) ∧
    (∀ w params p recipe, validateOnboardSimpleParams params = some p →
      getRecipe (jsTrim p.recipeId) = some recipe →
      simpleAgentId p = DEFAULT_AGENT_ID →
      onboardSimple w params =
        (.err INVALID_REQUEST ("\"" ++ DEFAULT_AGENT_ID ++ "\" is reserved"), []) ∧
      (runSimple w params).2 = w) ∧
    (∀ w params p recipe, validateOnboardSimpleParams params = some p →
      getRecipe (jsTrim p.recipeId) = some recipe →
      simpleAgentId p ≠ DEFAULT_AGENT_ID →
      (findAgentEntryIndex (listAgentEntries (loadConfig w)) (simpleAgentId p)).isSome →
      onboardSimple w params =
        (.err INVALID_REQUEST ("agent \"" ++ simpleAgentId p ++ "\" already exists"), []) ∧
      (runSimple w params).2 = w) := by
  refine ⟨?_, ?_, ?_, ?_⟩
  · intro w params hv
    have h := onboardSimple_invalid_eq w params hv
    exact ⟨h, by simp [runSimple, h, applyEvents_nil]⟩
  · intro w params p hv hr
    have h := onboardSimple_unknownRecipe_eq w params p hv hr
    exact ⟨h, by simp [runSimple, h, applyEvents_nil]⟩
  · intro w params p recipe hv hr hres
    have h := onboardSimple_reserved_eq w params p recipe hv hr hres
    exact ⟨h, by simp [runSimple, h, applyEvents_nil]⟩
  · intro w params p recipe hv hr hres hdup
    have h := onboardSimple_dup_eq w params p recipe hv hr hres hdup
    exact ⟨h, by simp [runSimple, h, applyEvents_nil]⟩

/-- C4 witness: the four early-failure modes at concrete inputs — missing
fields, recipe "does-not-exist" (scenario B), bot name "Main" (reserved),
and a registry already holding "helper". -/
theorem onboard_simple_early_failure_no_side_effect_witness :
    (onboardSimple demoWorld invalidSimpleParams =
      (.err INVALID_REQUEST "invalid onboard.simple params", []) ∧
     (runSimple demoWorld invalidSimpleParams).2 = demoWorld) ∧
    (onboardSimple demoWorld unknownRecipeParams =
      (.err INVALID_REQUEST ("unknown recipe: \"" ++ jsTrim "does-not-exist" ++ "\""), []) ∧
     (runSimple demoWorld unknownRecipeParams).2 = demoWorld) ∧
    (onboardSimple demoWorld reservedParams =
      (.err INVALID_REQUEST ("\"" ++ DEFAULT_AGENT_ID ++ "\" is reserved"), []) ∧
     (runSimple demoWorld reservedParams).2 = demoWorld) ∧
    (onboardSimple dupWorld demoSimpleParams =
      (.err INVALID_REQUEST ("agent \"" ++ simpleAgentId pAda ++ "\" already exists"), []) ∧
     (runSimple dupWorld demoSimpleParams).2 = dupWorld) :=
  ⟨onboard_simple_early_failure_no_side_effect.1 demoWorld invalidSimpleParams rfl,
   onboard_simple_early_failure_no_side_effect.2.1 demoWorld unknownRecipeParams
     ⟨"Ada", "Helper", "does-not-exist", none⟩ rfl rfl,
   onboard_simple_early_failure_no_side_effect.2.2.1 demoWorld reservedParams
     ⟨"Ada", "Main", "daily-assistant", none⟩ dailyAssistant rfl rfl (by decide),
   onboard_simple_early_failure_no_side_effect.2.2.2 dupWorld demoSimpleParams
     pAda dailyAssistant rfl rfl (by decide) rfl⟩

/-- C5: in every successful `onboard.simple` execution the side-effect
trace is exactly: the workspace directory creation, then the
session-transcripts directory creation, then the configuration persist,
then only workspace-file writes — so both directories are created strictly
before the config is persisted, and the config is persisted strictly before
any workspace file is written; and directory creation is idempotent
(creating an already-existing directory changes nothing and is not an
error). -/
theorem onboard_simple_effect_ordering
    (w : World) (params : RawSimpleParams) (p : SimpleParams) (recipe : Recipe)
    (hv : validateOnboardSimpleParams params = some p)
    (hr : getRecipe (jsTrim p.recipeId) = some recipe)
    (hres : simpleAgentId p ≠ DEFAULT_AGENT_ID)
    (hdup : findAgentEntryIndex (listAgentEntries (loadConfig w)) (simpleAgentId p) = none) :
    (onboardSimple w params).2 =
      FsEvent.mkdir (simpleWorkspaceDir w p) ::
        FsEvent.mkdir (resolveSessionTranscriptsDirForAgent (simpleAgentId p)) ::
          FsEvent.writeConfig (simpleNextConfig w p) :: simpleFileEvents w p recipe ∧
    (∀ e ∈ simpleFileEvents w p recipe, e.isWriteFile = true) ∧
    (∀ w2 q, applyEvent (applyEvent w2 (FsEvent.mkdir q)) (FsEvent.mkdir q) =
      applyEvent w2 (FsEvent.mkdir q)) := by
  refine ⟨?_, simpleFileEvents_writeFiles w p recipe, ?_⟩
  · rw [onboardSimple_success_eq w params p recipe hv hr hres hdup]
  · intro w2 q
    by_cases hq : q ∈ w2.dirs
    · simp [applyEvent, hq]
    · simp [applyEvent, hq]

/-- C5 witness: the concrete trace of onboarding "Helper" from the empty
world has the mkdir-mkdir-writeConfig-writeFiles shape. -/
theorem onboard_simple_effect_ordering_witness :
    (onboardSimple demoWorld demoSimpleParams).2 =
      FsEvent.mkdir (simpleWorkspaceDir demoWorld pAda) ::
        FsEvent.mkdir (resolveSessionTranscriptsDirForAgent (simpleAgentId pAda)) ::
          FsEvent.writeConfig (simpleNextConfig demoWorld pAda) ::
            simpleFileEvents demoWorld pAda dailyAssistant ∧
    (∀ e ∈ simpleFileEvents demoWorld pAda dailyAssistant, e.isWriteFile = true) ∧
    (∀ w2 q, applyEvent (applyEvent w2 (FsEvent.mkdir q)) (FsEvent.mkdir q) =
      applyEvent w2 (FsEvent.mkdir q)) :=
  onboard_simple_effect_ordering demoWorld demoSimpleParams pAda dailyAssistant
    rfl rfl (by decide) rfl

end OpenClaw
